import Mathlib

/-!
Verification development for `classify_model.py`: a fine-tuning script that
wraps a pretrained encoder with a linear classification head, trains it with
a warmup+cosine learning-rate schedule, validates each epoch, checkpoints the
best and most-recent models, and reports test metrics.

The shallow embedding models tensors as lists of rationals, the framework
(forward/backward/optimizer) as an explicit oracle bundle, and the filesystem
checkpoint slots as optional snapshots with write counters.
-/

/-! ### Evaluation metrics (`model_evaluate`, sklearn `accuracy_score`) -/

/-- Helper for `torch.argmax`: scan the list keeping the first index of the
largest value seen so far. -/
def argmaxAux (bi : ℕ) (bv : ℚ) (i : ℕ) : List ℚ → ℕ
  | [] => bi
  | x :: xs => if bv < x then argmaxAux i x (i + 1) xs else argmaxAux bi bv (i + 1) xs

/-- Model of `torch.argmax` on one logit row: index of the first maximal entry
(0 on an empty row). -/
def argmaxIdx : List ℚ → ℕ
  | [] => 0
  | x :: xs => argmaxAux 0 x 1 xs

/-- sklearn `accuracy_score`: the number of positions where prediction equals
ground truth, divided by the number of samples. -/
def accuracy_score (y_true y_pred : List ℕ) : ℚ :=
  (((y_true.zip y_pred).countP fun p => p.1 == p.2 : ℕ) : ℚ) / (y_true.length : ℚ)

namespace ModelTrainer

/-- Source `ModelTrainer.model_evaluate`: accuracy of a batch, comparing the
row-wise argmax of the predicted logits against the integer labels. -/
def model_evaluate (y_true : List ℕ) (y_pred : List (List ℚ)) : ℚ :=
  accuracy_score y_true (y_pred.map argmaxIdx)

end ModelTrainer

/-! ### sklearn `classification_report`: per-class precision/recall/F1/support -/

/-- Per-class metrics row of sklearn `classification_report`. -/
structure ClassMetrics where
  precision_score : ℚ
  recall_score : ℚ
  f1_score : ℚ
  support : ℕ
deriving DecidableEq, Repr

/-- The sorted list of distinct class labels occurring in either the true or
the predicted labels. -/
def classLabels (y_true y_pred : List ℕ) : List ℕ :=
  (List.range ((y_true ++ y_pred).foldl max 0 + 1)).filter fun c => c ∈ y_true ++ y_pred

/-- True positives of class `c`: pairs predicted `c` whose truth is `c`. -/
def truePos (y_true y_pred : List ℕ) (c : ℕ) : ℕ :=
  (y_true.zip y_pred).countP fun p => p.1 == c && p.2 == c

/-- Metrics of one class: precision = TP / predicted-count, recall =
TP / support, F1 their harmonic mean, support = occurrences in `y_true`
(divisions by zero yield 0, matching sklearn's zero-division behaviour). -/
def classMetricsOf (y_true y_pred : List ℕ) (c : ℕ) : ClassMetrics :=
  let tp : ℚ := truePos y_true y_pred c
  let predCount : ℚ := y_pred.countP (fun p => p == c)
  let supp : ℕ := y_true.countP fun t => t == c
  let prc := tp / predCount
  let rcl := tp / (supp : ℚ)
  { precision_score := prc
    recall_score := rcl
    f1_score := 2 * prc * rcl / (prc + rcl)
    support := supp }

/-- sklearn `classification_report`, reduced to its numeric content: one
metrics row per class label present in the data. -/
def classification_report (y_true y_pred : List ℕ) : List (ℕ × ClassMetrics) :=
  (classLabels y_true y_pred).map fun c => (c, classMetricsOf y_true y_pred c)

/-! ### Classifier head (`SentenceClassifyModel`) -/

/-- Output tuple of the pretrained encoder: `outputs[0]` is the per-token
sequence output, `outputs[1]` the pooled sentence representation. -/
structure BertOutputs where
  sequence_output : List (List (List ℚ))
  pooler_output : List (List ℚ)

/-- Dot product of two vectors (`zip`-truncating, as matrix rows and inputs
always have matching length in well-formed calls). -/
def dot (a b : List ℚ) : ℚ :=
  ((a.zip b).map fun p => p.1 * p.2).sum

/-- Model of `nn.Linear`: `y_j = dot(weight_j, x) + bias_j`, one output per
(weight row, bias entry) pair. -/
def linearLayer (weight : List (List ℚ)) (bias : List ℚ) (x : List ℚ) : List ℚ :=
  (weight.zip bias).map fun wb => dot wb.1 x + wb.2

/-- State built by `SentenceClassifyModel.__init__`: the pretrained encoder (abstracted as a
function from the three tensor arguments to its outputs, `none` standing for
Python `None` segment ids), the config's `hidden_dropout_prob` stored by the
constructed `nn.Dropout` module, the `nn.Linear` classifier weights, and the
module's train/eval mode flag. -/
structure SentenceClassifyModel where
  bert : List (List ℤ) → List (List ℤ) → Option (List (List ℤ)) → BertOutputs
  hidden_dropout_prob : ℚ
  classifier_weight : List (List ℚ)
  classifier_bias : List ℚ
  training : Bool

/-- Source `SentenceClassifyModel.forward`: run the encoder, take `outputs[1]` (the
pooled output), and apply the linear classifier to each row. The Python
default argument `token_type_ids=None` is the `none` case; call sites that
omit the argument are modelled by passing `none`. -/
def SentenceClassifyModel.forward (m : SentenceClassifyModel)
    (input_ids attention_mask : List (List ℤ))
    (token_type_ids : Option (List (List ℤ))) : List (List ℚ) :=
  let outputs := m.bert input_ids attention_mask token_type_ids
  let out_pool := outputs.pooler_output
  let logit := out_pool.map (linearLayer m.classifier_weight m.classifier_bias)
  logit

/-- Model of `nn.Dropout` applied to one vector with an explicit keep-mask: in training
mode, kept coordinates are rescaled by `1/(1-p)` and dropped coordinates are
zeroed; in evaluation mode it is the identity. -/
def dropoutApply (training : Bool) (p : ℚ) (mask : List Bool) (x : List ℚ) : List ℚ :=
  if training then (x.zip mask).map fun xm => if xm.2 then xm.1 / (1 - p) else 0 else x

/-- Modelled from the spec: the spec's description of the classifier head
("run the pretrained encoder, take its pooled/aggregate representation, apply
dropout (active only in training mode), apply a linear projection to class
count"), with the dropout keep-mask made explicit. Used only to compare the
spec's pipeline against the source's `forward`. -/
def forward_spec (m : SentenceClassifyModel) (mask : List Bool)
    (input_ids attention_mask : List (List ℤ))
    (token_type_ids : Option (List (List ℤ))) : List (List ℚ) :=
  let outputs := m.bert input_ids attention_mask token_type_ids
  let out_pool := outputs.pooler_output
  let dropped := out_pool.map (dropoutApply m.training m.hidden_dropout_prob mask)
  dropped.map (linearLayer m.classifier_weight m.classifier_bias)

/-- A concrete classifier head used to separate `forward` from the spec's
dropout pipeline: hidden size 1, dropout probability 1/2, identity classifier,
training mode, encoder constantly returning pooled output `[[1]]`. -/
def cmodel : SentenceClassifyModel :=
  { bert := fun _ _ _ => { sequence_output := [], pooler_output := [[1]] }
    hidden_dropout_prob := 1 / 2
    classifier_weight := [[1]]
    classifier_bias := [0]
    training := true }

/-! ### Trainer embedding (`ModelTrainer`) -/

/-- One batch from the dataset provider: all four tensors are loaded, whether
or not the model is later called with them. -/
structure Batch where
  input_ids : List (List ℤ)
  token_type_ids : List (List ℤ)
  attention_mask : List (List ℤ)
  labels : List ℕ
deriving DecidableEq, Repr

/-- The live model as the trainer sees it: its parameters (`state_dict`,
flattened to one list) and its train/eval mode flag. -/
structure TorchModel where
  state_dict : List ℚ
  training : Bool
deriving DecidableEq, Repr

/-- The two checkpoint files under `model/`, each an optional snapshot (absent
until first written), plus counters of how often `torch.save` hit each slot. -/
structure FileSystem where
  best_model : Option (List ℚ)
  most_model : Option (List ℚ)
  best_writes : ℕ
  most_writes : ℕ
deriving DecidableEq, Repr

/-- Effect of `torch.save(state_dict, best_model_path)`: overwrite the best slot. -/
def FileSystem.save_best (fs : FileSystem) (sd : List ℚ) : FileSystem :=
  { fs with best_model := some sd, best_writes := fs.best_writes + 1 }

/-- Effect of `torch.save(state_dict, most_model_path)`: overwrite the most-recent slot. -/
def FileSystem.save_most (fs : FileSystem) (sd : List ℚ) : FileSystem :=
  { fs with most_model := some sd, most_writes := fs.most_writes + 1 }

/-- The deep-learning framework, abstracted as an oracle bundle: the model's
forward function (of parameters, mode, input ids, attention mask, optional
segment ids), `nn.CrossEntropyLoss` (of logits and integer labels), autograd's
gradient of that loss with respect to the parameters, and the `AdamW` update
(of schedule step count — which determines the current learning rate through
the `LambdaLR` scheduler — internal optimizer state, gradient buffers, and
parameters, returning new internal state and parameters). -/
structure Torch where
  forward : List ℚ → Bool → List (List ℤ) → List (List ℤ) → Option (List (List ℤ)) →
    List (List ℚ)
  crossEntropyLoss : List (List ℚ) → List ℕ → ℚ
  gradOf : List ℚ → List (List ℤ) → List (List ℤ) → List ℕ → List ℚ
  optStep : ℕ → List ℚ → List ℚ → List ℚ → List ℚ × List ℚ

/-- The trainer's full mutable state: the model, the optimizer's gradient
buffers and internal state, the scheduler's step count, `self.best_acc`, the
checkpoint files, and the per-epoch bookkeeping scalars. -/
structure RunState where
  model : TorchModel
  grads : List ℚ
  opt_internal : List ℚ
  sched : ℕ
  best_acc : ℚ
  fs : FileSystem
  train_loss_sum : ℚ
  train_accuracy : ℚ
  batch_index : ℕ
deriving DecidableEq, Repr

/-- The operations performed inside one training-loop iteration, in the order
the source executes them. -/
inductive TrainOp where
  | forward_pass
  | loss_compute
  | zero_grad
  | backward
  | optimizer_step
  | scheduler_step
deriving DecidableEq, Repr

/-- The Python locals of one loop-body iteration alongside the trainer state. -/
structure StepCtx where
  s : RunState
  pred_labels : List (List ℚ)
  loss : ℚ
deriving DecidableEq

/-- Pointwise addition of two gradient vectors (autograd accumulation). -/
def zipAdd (a b : List ℚ) : List ℚ :=
  (a.zip b).map fun p => p.1 + p.2

/-- Line 90: `pred_labels = self.model(input_ids=…, attention_mask=…)` — the
forward pass, called without `token_type_ids`, hence with `none`. -/
def step_forward (sem : Torch) (b : Batch) (c : StepCtx) : StepCtx × TrainOp :=
  ({ c with pred_labels :=
      sem.forward c.s.model.state_dict c.s.model.training b.input_ids b.attention_mask none },
   .forward_pass)

/-- Line 91: `loss = nn.CrossEntropyLoss()(pred_labels, true_labels)`. -/
def step_loss (sem : Torch) (b : Batch) (c : StepCtx) : StepCtx × TrainOp :=
  ({ c with loss := sem.crossEntropyLoss c.pred_labels b.labels }, .loss_compute)

/-- Line 92: `optimizer.zero_grad()` — every parameter's gradient buffer
(shaped like the parameters) is reset to zero. -/
def step_zero_grad (c : StepCtx) : StepCtx × TrainOp :=
  ({ c with s := { c.s with grads := c.s.model.state_dict.map fun _ => 0 } }, .zero_grad)

/-- Line 93: `loss.backward()` — autograd adds the gradient of the current
batch's loss into the gradient buffers. -/
def step_backward (sem : Torch) (b : Batch) (c : StepCtx) : StepCtx × TrainOp :=
  let g := sem.gradOf c.s.model.state_dict b.input_ids b.attention_mask b.labels
  ({ c with s := { c.s with grads := zipAdd c.s.grads g } }, .backward)

/-- Line 94: `optimizer.step()` — one `AdamW` parameter update consuming the
gradient buffers at the current scheduled learning rate. -/
def step_optimizer (sem : Torch) (c : StepCtx) : StepCtx × TrainOp :=
  let r := sem.optStep c.s.sched c.s.opt_internal c.s.grads c.s.model.state_dict
  ({ c with s := { c.s with
      opt_internal := r.1
      model := { c.s.model with state_dict := r.2 } } },
   .optimizer_step)

/-- Line 95: `scheduler.step()` — the schedule advances by one step. -/
def step_scheduler (c : StepCtx) : StepCtx × TrainOp :=
  ({ c with s := { c.s with sched := c.s.sched + 1 } }, .scheduler_step)

/-- Lines 97-98: running sums of loss and batch accuracy (metric bookkeeping,
feeding only prints and the telemetry sink). -/
def step_bookkeeping (b : Batch) (c : StepCtx) : StepCtx :=
  { c with s := { c.s with
      train_loss_sum := c.s.train_loss_sum + c.loss
      train_accuracy := c.s.train_accuracy + ModelTrainer.model_evaluate b.labels c.pred_labels } }

namespace ModelTrainer

/-- One iteration of the training loop (lines 84-113): increment the batch
index, then forward, loss, zero-grad, backward, optimizer step, scheduler
step, then metric bookkeeping; also returns the performed operations in
execution order. -/
def train_step (sem : Torch) (b : Batch) (s : RunState) : RunState × List TrainOp :=
  let c0 : StepCtx := { s := { s with batch_index := s.batch_index + 1 }, pred_labels := [], loss := 0 }
  let r1 := step_forward sem b c0
  let r2 := step_loss sem b r1.1
  let r3 := step_zero_grad r2.1
  let r4 := step_backward sem b r3.1
  let r5 := step_optimizer sem r4.1
  let r6 := step_scheduler r5.1
  let c7 := step_bookkeeping b r6.1
  (c7.s, [r1.2, r2.2, r3.2, r4.2, r5.2, r6.2])

/-- The training phase of one epoch (lines 78-83 and the batch loop): switch
the model to training mode, reset the bookkeeping scalars, and fold
`train_step` over the epoch's batches. -/
def epoch_train_phase (sem : Torch) (train_batches : List Batch) (s : RunState) : RunState :=
  let s0 : RunState := { s with
    model := { s.model with training := true }
    train_loss_sum := 0
    train_accuracy := 0
    batch_index := 0 }
  train_batches.foldl (fun st b => (train_step sem b st).1) s0

/-- Source `ModelTrainer.model_valid` (lines 128-140): switch the model to evaluation
mode, run every batch of the loader under `torch.no_grad()` collecting true
labels and argmax predictions, and return the model and the accuracy over the
collected lists. -/
def model_valid (sem : Torch) (data_loader : List Batch) (m : TorchModel) : TorchModel × ℚ :=
  let me : TorchModel := { m with training := false }
  let tp := data_loader.foldl
    (fun (acc : List ℕ × List ℕ) b =>
      (acc.1 ++ b.labels,
       acc.2 ++ (sem.forward me.state_dict me.training b.input_ids b.attention_mask none).map
         argmaxIdx))
    ([], [])
  (me, accuracy_score tp.1 tp.2)

/-- One full epoch (loop body of lines 76-126): training phase, validation,
conditional best-checkpoint save (`if acc > self.best_acc`), unconditional
most-recent-checkpoint save; also returns the epoch's validation accuracy. -/
def run_epoch (sem : Torch) (train_batches valid_batches : List Batch) (s : RunState) :
    RunState × ℚ :=
  let s1 := epoch_train_phase sem train_batches s
  let va := model_valid sem valid_batches s1.model
  let s2 : RunState := { s1 with model := va.1 }
  let acc := va.2
  let s3 := if acc > s2.best_acc then
    { s2 with best_acc := acc, fs := s2.fs.save_best s2.model.state_dict }
  else s2
  let s4 : RunState := { s3 with fs := s3.fs.save_most s3.model.state_dict }
  (s4, acc)

/-- The epoch loop over a list of epoch indices; `train_data i` is the (re-)
shuffled batch sequence the loader yields in epoch `i`. Also collects each
epoch's validation accuracy. -/
def train_epochs (sem : Torch) (train_data : ℕ → List Batch) (valid_batches : List Batch) :
    List ℕ → RunState → RunState × List ℚ
  | [], s => (s, [])
  | i :: is, s =>
    let r := run_epoch sem (train_data i) valid_batches s
    let rest := train_epochs sem train_data valid_batches is r.1
    (rest.1, r.2 :: rest.2)

/-- Source `ModelTrainer.model_train` (lines 70-126): `for i in range(self.epochs)`
over `run_epoch`. -/
def model_train (sem : Torch) (train_data : ℕ → List Batch) (valid_batches : List Batch)
    (epochs : ℕ) (s : RunState) : RunState × List ℚ :=
  train_epochs sem train_data valid_batches (List.range epochs) s

/-- Source `ModelTrainer.__init__` (lines 50-62): fresh trainer state — in particular
`self.best_acc = 0.0` — over an as-yet-untouched `model/` directory, with
zeroed gradient buffers and a fresh optimizer and scheduler. -/
def initRun (m : TorchModel) : RunState :=
  { model := m
    grads := m.state_dict.map fun _ => 0
    opt_internal := []
    sched := 0
    best_acc := 0
    fs := { best_model := none, most_model := none, best_writes := 0, most_writes := 0 }
    train_loss_sum := 0
    train_accuracy := 0
    batch_index := 0 }

/-- Source `ModelTrainer.model_test` (lines 149-162): `torch.load` of the best
checkpoint (a missing file raises, modelled as `.error`), `load_state_dict`
into the model, evaluation mode, one `torch.no_grad()` pass over the test
loader, and the reported accuracy and classification report. -/
def model_test (sem : Torch) (test_loader : List Batch) (s : RunState) :
    Except String (ℚ × List (ℕ × ClassMetrics)) :=
  match s.fs.best_model with
  | none => .error "FileNotFoundError: model/best_model.pth"
  | some sd =>
    let m : TorchModel := { state_dict := sd, training := false }
    let tp := test_loader.foldl
      (fun (acc : List ℕ × List ℕ) b =>
        (acc.1 ++ b.labels,
         acc.2 ++ (sem.forward m.state_dict m.training b.input_ids b.attention_mask none).map
           argmaxIdx))
      ([], [])
    .ok (accuracy_score tp.1 tp.2, classification_report tp.1 tp.2)

end ModelTrainer

/-! ### Learning-rate schedule (`get_cosine_schedule_with_warmup`) -/

/-- The multiplier applied to the base learning rate by
`transformers.get_cosine_schedule_with_warmup` (with its default
`num_cycles = 0.5`) at a given scheduler step: linear `step/warmup` during
warmup, then `max(0, (1 + cos(pi * 2 * 0.5 * progress)) / 2)` where `progress`
runs linearly from 0 at the end of warmup to 1 at `num_training_steps`. -/
noncomputable def cosine_lr_lambda (num_warmup_steps num_training_steps current_step : ℕ) : ℝ :=
  if current_step < num_warmup_steps then
    (current_step : ℝ) / ((max 1 num_warmup_steps : ℕ) : ℝ)
  else
    let progress : ℝ :=
      ((current_step : ℝ) - (num_warmup_steps : ℝ)) /
        ((max 1 (num_training_steps - num_warmup_steps) : ℕ) : ℝ)
    max 0 (1 / 2 * (1 + Real.cos (Real.pi * (1 / 2) * 2 * progress)))

/-- Lines 74-75: the schedule is constructed with `num_warmup_steps = steps`
(one epoch's worth) and `num_training_steps = epochs * steps`. -/
def scheduler_args (epochs steps : ℕ) : ℕ × ℕ :=
  (steps, epochs * steps)

/-- The configured peak learning rate, line 72: `lr=2e-5`. -/
noncomputable def base_lr : ℝ :=
  2 / 100000

/-- The optimizer's learning rate after `t` scheduler steps of the run's
schedule: the base rate times the warmup/cosine multiplier. -/
noncomputable def lr_at (epochs steps t : ℕ) : ℝ :=
  base_lr * cosine_lr_lambda (scheduler_args epochs steps).1 (scheduler_args epochs steps).2 t

/-! ### Concrete instances used to exercise the theorems -/

/-- A concrete framework oracle: the model always emits logits `[[0, 1]]`
(argmax 1), loss 0, a fixed gradient, and an identity parameter update. -/
def semZ : Torch :=
  { forward := fun _ _ _ _ _ => [[0, 1]]
    crossEntropyLoss := fun _ _ => 0
    gradOf := fun _ _ _ _ => [0]
    optStep := fun _ oi _ p => (oi, p) }

/-- A concrete one-example batch with label 0. -/
def batchZ : Batch :=
  { input_ids := [[0]], token_type_ids := [[0]], attention_mask := [[1]], labels := [0] }

/-- A concrete one-parameter model. -/
def modelZ : TorchModel :=
  { state_dict := [0], training := true }

/-- A concrete trainer state whose best-checkpoint slot holds snapshot `[1]`. -/
def stateZ : RunState :=
  { ModelTrainer.initRun modelZ with
    fs := { best_model := some [1], most_model := none, best_writes := 1, most_writes := 0 } }

/-! ### Helper lemmas -/

lemma train_step_best_acc (sem : Torch) (b : Batch) (s : RunState) :
    (ModelTrainer.train_step sem b s).1.best_acc = s.best_acc :=
  rfl

lemma train_step_fs (sem : Torch) (b : Batch) (s : RunState) :
    (ModelTrainer.train_step sem b s).1.fs = s.fs :=
  rfl

lemma foldl_train_step_best_acc (sem : Torch) :
    ∀ (l : List Batch) (s : RunState),
      (l.foldl (fun st b => (ModelTrainer.train_step sem b st).1) s).best_acc = s.best_acc
  | [], _ => rfl
  | b :: bs, s => by
    rw [List.foldl_cons, foldl_train_step_best_acc sem bs, train_step_best_acc]

lemma foldl_train_step_fs (sem : Torch) :
    ∀ (l : List Batch) (s : RunState),
      (l.foldl (fun st b => (ModelTrainer.train_step sem b st).1) s).fs = s.fs
  | [], _ => rfl
  | b :: bs, s => by
    rw [List.foldl_cons, foldl_train_step_fs sem bs, train_step_fs]

lemma epoch_train_phase_best_acc (sem : Torch) (tb : List Batch) (s : RunState) :
    (ModelTrainer.epoch_train_phase sem tb s).best_acc = s.best_acc := by
  unfold ModelTrainer.epoch_train_phase
  rw [foldl_train_step_best_acc]

lemma epoch_train_phase_fs (sem : Torch) (tb : List Batch) (s : RunState) :
    (ModelTrainer.epoch_train_phase sem tb s).fs = s.fs := by
  unfold ModelTrainer.epoch_train_phase
  rw [foldl_train_step_fs]

lemma model_valid_state_dict (sem : Torch) (dl : List Batch) (m : TorchModel) :
    (ModelTrainer.model_valid sem dl m).1.state_dict = m.state_dict :=
  rfl

lemma run_epoch_acc (sem : Torch) (tb vb : List Batch) (s : RunState) :
    (ModelTrainer.run_epoch sem tb vb s).2 =
      (ModelTrainer.model_valid sem vb (ModelTrainer.epoch_train_phase sem tb s).model).2 :=
  rfl

lemma run_epoch_best_acc (sem : Torch) (tb vb : List Batch) (s : RunState) :
    (ModelTrainer.run_epoch sem tb vb s).1.best_acc =
      if s.best_acc < (ModelTrainer.run_epoch sem tb vb s).2 then
        (ModelTrainer.run_epoch sem tb vb s).2
      else s.best_acc := by
  unfold ModelTrainer.run_epoch
  by_cases h :
      (ModelTrainer.model_valid sem vb (ModelTrainer.epoch_train_phase sem tb s).model).2 >
        (ModelTrainer.epoch_train_phase sem tb s).best_acc
  · simp only [h, if_true, epoch_train_phase_best_acc sem tb s ▸ h, if_pos]
  · rw [epoch_train_phase_best_acc] at h
    simp only [gt_iff_lt, epoch_train_phase_best_acc, h, if_false, if_neg h]

lemma run_epoch_best_writes (sem : Torch) (tb vb : List Batch) (s : RunState) :
    (ModelTrainer.run_epoch sem tb vb s).1.fs.best_writes =
      s.fs.best_writes +
        (if s.best_acc < (ModelTrainer.run_epoch sem tb vb s).2 then 1 else 0) := by
  unfold ModelTrainer.run_epoch
  by_cases h :
      (ModelTrainer.model_valid sem vb (ModelTrainer.epoch_train_phase sem tb s).model).2 >
        (ModelTrainer.epoch_train_phase sem tb s).best_acc
  · rw [epoch_train_phase_best_acc] at h
    simp [h, FileSystem.save_best, FileSystem.save_most, epoch_train_phase_fs,
      epoch_train_phase_best_acc]
  · rw [epoch_train_phase_best_acc] at h
    simp [h, FileSystem.save_most, epoch_train_phase_fs, epoch_train_phase_best_acc]

lemma run_epoch_best_model (sem : Torch) (tb vb : List Batch) (s : RunState) :
    (ModelTrainer.run_epoch sem tb vb s).1.fs.best_model =
      if s.best_acc < (ModelTrainer.run_epoch sem tb vb s).2 then
        some (ModelTrainer.epoch_train_phase sem tb s).model.state_dict
      else s.fs.best_model := by
  unfold ModelTrainer.run_epoch
  by_cases h :
      (ModelTrainer.model_valid sem vb (ModelTrainer.epoch_train_phase sem tb s).model).2 >
        (ModelTrainer.epoch_train_phase sem tb s).best_acc
  · rw [epoch_train_phase_best_acc] at h
    simp [h, FileSystem.save_best, FileSystem.save_most, epoch_train_phase_fs,
      epoch_train_phase_best_acc, model_valid_state_dict]
  · rw [epoch_train_phase_best_acc] at h
    simp [h, FileSystem.save_most, epoch_train_phase_fs, epoch_train_phase_best_acc]

lemma run_epoch_most_writes (sem : Torch) (tb vb : List Batch) (s : RunState) :
    (ModelTrainer.run_epoch sem tb vb s).1.fs.most_writes = s.fs.most_writes + 1 := by
  unfold ModelTrainer.run_epoch
  by_cases h :
      (ModelTrainer.model_valid sem vb (ModelTrainer.epoch_train_phase sem tb s).model).2 >
        (ModelTrainer.epoch_train_phase sem tb s).best_acc
  · simp [h, FileSystem.save_best, FileSystem.save_most, epoch_train_phase_fs]
  · simp [h, FileSystem.save_most, epoch_train_phase_fs]

lemma run_epoch_best_acc_le (sem : Torch) (tb vb : List Batch) (s : RunState) :
    s.best_acc ≤ (ModelTrainer.run_epoch sem tb vb s).1.best_acc := by
  rw [run_epoch_best_acc]
  split
  · exact le_of_lt ‹_›
  · exact le_refl _

lemma train_epochs_best_acc_le (sem : Torch) (td : ℕ → List Batch) (vb : List Batch) :
    ∀ (l : List ℕ) (s : RunState),
      s.best_acc ≤ (ModelTrainer.train_epochs sem td vb l s).1.best_acc
  | [], _ => le_refl _
  | i :: is, s =>
    le_trans (run_epoch_best_acc_le sem (td i) vb s)
      (train_epochs_best_acc_le sem td vb is (ModelTrainer.run_epoch sem (td i) vb s).1)

lemma train_epochs_most_writes (sem : Torch) (td : ℕ → List Batch) (vb : List Batch) :
    ∀ (l : List ℕ) (s : RunState),
      (ModelTrainer.train_epochs sem td vb l s).1.fs.most_writes = s.fs.most_writes + l.length
  | [], _ => rfl
  | i :: is, s => by
    have h := train_epochs_most_writes sem td vb is (ModelTrainer.run_epoch sem (td i) vb s).1
    show (ModelTrainer.train_epochs sem td vb is
        (ModelTrainer.run_epoch sem (td i) vb s).1).1.fs.most_writes = _
    rw [h, run_epoch_most_writes, List.length_cons]
    omega

lemma train_epochs_no_improvement (sem : Torch) (td : ℕ → List Batch) (vb : List Batch) :
    ∀ (l : List ℕ) (s : RunState), s.best_acc = 0 →
      (∀ a ∈ (ModelTrainer.train_epochs sem td vb l s).2, a ≤ 0) →
      (ModelTrainer.train_epochs sem td vb l s).1.best_acc = 0 ∧
        (ModelTrainer.train_epochs sem td vb l s).1.fs.best_model = s.fs.best_model ∧
        (ModelTrainer.train_epochs sem td vb l s).1.fs.best_writes = s.fs.best_writes
  | [], s, h0, _ => ⟨h0, rfl, rfl⟩
  | i :: is, s, h0, hall => by
    have hmem : (ModelTrainer.run_epoch sem (td i) vb s).2 ∈
        (ModelTrainer.train_epochs sem td vb (i :: is) s).2 := by
      show _ ∈ _ :: _
      exact List.mem_cons_self _ _
    have hle := hall _ hmem
    have hnot : ¬ s.best_acc < (ModelTrainer.run_epoch sem (td i) vb s).2 := by
      rw [h0]
      exact not_lt.mpr hle
    have hba : (ModelTrainer.run_epoch sem (td i) vb s).1.best_acc = 0 := by
      rw [run_epoch_best_acc, if_neg hnot, h0]
    have hbm : (ModelTrainer.run_epoch sem (td i) vb s).1.fs.best_model = s.fs.best_model := by
      rw [run_epoch_best_model, if_neg hnot]
    have hbw : (ModelTrainer.run_epoch sem (td i) vb s).1.fs.best_writes = s.fs.best_writes := by
      rw [run_epoch_best_writes, if_neg hnot, add_zero]
    have hall' : ∀ a ∈ (ModelTrainer.train_epochs sem td vb is
        (ModelTrainer.run_epoch sem (td i) vb s).1).2, a ≤ 0 := by
      intro a ha
      exact hall a (List.mem_cons_of_mem _ ha)
    have ih := train_epochs_no_improvement sem td vb is
      (ModelTrainer.run_epoch sem (td i) vb s).1 hba hall'
    refine ⟨ih.1, ?_, ?_⟩
    · show (ModelTrainer.train_epochs sem td vb is
        (ModelTrainer.run_epoch sem (td i) vb s).1).1.fs.best_model = s.fs.best_model
      rw [ih.2.1, hbm]
    · show (ModelTrainer.train_epochs sem td vb is
        (ModelTrainer.run_epoch sem (td i) vb s).1).1.fs.best_writes = s.fs.best_writes
      rw [ih.2.2, hbw]

/-! ### Claim theorems -/

/-- C1: in every epoch, the best checkpoint is written exactly once if that
epoch's validation accuracy strictly exceeds the recorded best (and the
record is updated to it), and not at all otherwise; the recorded best
accuracy starts at 0.0 and is monotonically non-decreasing over each epoch
and over the whole run. -/
theorem best_checkpoint_iff_improved (sem : Torch) (tb vb : List Batch) (td : ℕ → List Batch)
    (epochs : ℕ) (s : RunState) (m : TorchModel) :
    (ModelTrainer.run_epoch sem tb vb s).1.fs.best_writes =
      s.fs.best_writes +
        (if s.best_acc < (ModelTrainer.run_epoch sem tb vb s).2 then 1 else 0) ∧
    (¬ s.best_acc < (ModelTrainer.run_epoch sem tb vb s).2 →
      (ModelTrainer.run_epoch sem tb vb s).1.fs.best_model = s.fs.best_model) ∧
    (s.best_acc < (ModelTrainer.run_epoch sem tb vb s).2 →
      (ModelTrainer.run_epoch sem tb vb s).1.best_acc =
        (ModelTrainer.run_epoch sem tb vb s).2) ∧
    s.best_acc ≤ (ModelTrainer.run_epoch sem tb vb s).1.best_acc ∧
    (ModelTrainer.initRun m).best_acc = 0 ∧
    s.best_acc ≤ (ModelTrainer.model_train sem td vb epochs s).1.best_acc := by
  refine ⟨run_epoch_best_writes sem tb vb s, ?_, ?_,
    run_epoch_best_acc_le sem tb vb s, rfl, train_epochs_best_acc_le sem td vb _ s⟩
  · intro h
    rw [run_epoch_best_model, if_neg h]
  · intro h
    rw [run_epoch_best_acc, if_pos h]

/-- C2: one training-loop iteration performs, in order, the forward pass, the
cross-entropy loss, gradient zeroing, backpropagation, exactly one optimizer
update and exactly one scheduler advance; and because the buffers are zeroed
before `backward`, the whole step's result is independent of whatever
gradients were left in the buffers by the previous batch. -/
theorem train_step_order_and_gradient_isolation (sem : Torch) (b : Batch) (s : RunState)
    (g : List ℚ) :
    (ModelTrainer.train_step sem b s).2 =
      [TrainOp.forward_pass, TrainOp.loss_compute, TrainOp.zero_grad, TrainOp.backward,
        TrainOp.optimizer_step, TrainOp.scheduler_step] ∧
    ModelTrainer.train_step sem b { s with grads := g } = ModelTrainer.train_step sem b s ∧
    (ModelTrainer.train_step sem b s).1.sched = s.sched + 1 :=
  ⟨rfl, rfl, rfl⟩

/-- C6: the most-recent checkpoint is written exactly once per epoch whatever
the validation outcome, hence exactly `epochs` times over the whole run. -/
theorem most_model_saved_once_per_epoch (sem : Torch) (tb vb : List Batch)
    (td : ℕ → List Batch) (epochs : ℕ) (s : RunState) :
    (ModelTrainer.run_epoch sem tb vb s).1.fs.most_writes = s.fs.most_writes + 1 ∧
    (ModelTrainer.model_train sem td vb epochs s).1.fs.most_writes =
      s.fs.most_writes + epochs := by
  refine ⟨run_epoch_most_writes sem tb vb s, ?_⟩
  unfold ModelTrainer.model_train
  rw [train_epochs_most_writes, List.length_range]

lemma valid_fold_eq (f g : Batch → List ℕ) :
    ∀ (l : List Batch) (a b : List ℕ),
      l.foldl (fun acc x => (acc.1 ++ f x, acc.2 ++ g x)) (a, b) =
        (a ++ l.flatMap f, b ++ l.flatMap g)
  | [], a, b => by simp
  | x :: xs, a, b => by
    rw [List.foldl_cons, valid_fold_eq f g xs]
    simp

lemma model_valid_acc (sem : Torch) (dl : List Batch) (m : TorchModel) :
    (ModelTrainer.model_valid sem dl m).2 =
      accuracy_score (dl.flatMap fun b => b.labels)
        (dl.flatMap fun b =>
          (sem.forward m.state_dict false b.input_ids b.attention_mask none).map argmaxIdx) := by
  unfold ModelTrainer.model_valid
  simp only [valid_fold_eq (fun b => b.labels)
    (fun b => (sem.forward m.state_dict false b.input_ids b.attention_mask none).map argmaxIdx)
    dl [] [], List.nil_append]

lemma run_epoch_grads (sem : Torch) (tb vb : List Batch) (s : RunState) :
    (ModelTrainer.run_epoch sem tb vb s).1.grads =
      (ModelTrainer.epoch_train_phase sem tb s).grads := by
  unfold ModelTrainer.run_epoch
  by_cases h :
      (ModelTrainer.model_valid sem vb (ModelTrainer.epoch_train_phase sem tb s).model).2 >
        (ModelTrainer.epoch_train_phase sem tb s).best_acc
  · simp [h]
  · simp [h]

lemma run_epoch_sched (sem : Torch) (tb vb : List Batch) (s : RunState) :
    (ModelTrainer.run_epoch sem tb vb s).1.sched =
      (ModelTrainer.epoch_train_phase sem tb s).sched := by
  unfold ModelTrainer.run_epoch
  by_cases h :
      (ModelTrainer.model_valid sem vb (ModelTrainer.epoch_train_phase sem tb s).model).2 >
        (ModelTrainer.epoch_train_phase sem tb s).best_acc
  · simp [h]
  · simp [h]

/-- C8: the end-of-epoch validation pass puts the model in evaluation mode,
computes accuracy over the entire validation set (in evaluation mode, with
the current parameters), and leaves the parameters unchanged; at the epoch
level it also leaves the gradient buffers and the scheduler untouched (no
gradient computation happens). -/
theorem model_valid_no_param_change (sem : Torch) (tb dl : List Batch) (m : TorchModel)
    (s : RunState) :
    (ModelTrainer.model_valid sem dl m).1.state_dict = m.state_dict ∧
    (ModelTrainer.model_valid sem dl m).1.training = false ∧
    (ModelTrainer.model_valid sem dl m).2 =
      accuracy_score (dl.flatMap fun b => b.labels)
        (dl.flatMap fun b =>
          (sem.forward m.state_dict false b.input_ids b.attention_mask none).map argmaxIdx) ∧
    (ModelTrainer.run_epoch sem tb dl s).1.grads =
      (ModelTrainer.epoch_train_phase sem tb s).grads ∧
    (ModelTrainer.run_epoch sem tb dl s).1.sched =
      (ModelTrainer.epoch_train_phase sem tb s).sched ∧
    (ModelTrainer.run_epoch sem tb dl s).1.model.state_dict =
      (ModelTrainer.epoch_train_phase sem tb s).model.state_dict :=
  ⟨rfl, rfl, model_valid_acc sem dl m, run_epoch_grads sem tb dl s, run_epoch_sched sem tb dl s,
    by
      unfold ModelTrainer.run_epoch
      by_cases h :
          (ModelTrainer.model_valid sem dl (ModelTrainer.epoch_train_phase sem tb s).model).2 >
            (ModelTrainer.epoch_train_phase sem tb s).best_acc
      · simp [h, model_valid_state_dict]
      · simp [h, model_valid_state_dict]⟩

lemma model_test_ok (sem : Torch) (testb : List Batch) (s : RunState) (sd : List ℚ)
    (h : s.fs.best_model = some sd) :
    ModelTrainer.model_test sem testb s =
      Except.ok
        (accuracy_score (testb.flatMap fun b => b.labels)
          (testb.flatMap fun b =>
            (sem.forward sd false b.input_ids b.attention_mask none).map argmaxIdx),
        classification_report (testb.flatMap fun b => b.labels)
          (testb.flatMap fun b =>
            (sem.forward sd false b.input_ids b.attention_mask none).map argmaxIdx)) := by
  unfold ModelTrainer.model_test
  rw [h]
  simp only [valid_fold_eq (fun b => b.labels)
    (fun b => (sem.forward sd false b.input_ids b.attention_mask none).map argmaxIdx)
    testb [] [], List.nil_append]

lemma model_test_none (sem : Torch) (testb : List Batch) (s : RunState)
    (h : s.fs.best_model = none) :
    ModelTrainer.model_test sem testb s =
      Except.error "FileNotFoundError: model/best_model.pth" := by
  unfold ModelTrainer.model_test
  rw [h]

/-- C4: with a best checkpoint present, the test phase loads exactly that
snapshot, runs one pass over the test loader in evaluation mode, and reports
the overall accuracy together with the per-class classification report; the
result is independent of the most-recent checkpoint slot and of the model's
in-memory parameters. -/
theorem model_test_loads_best_checkpoint (sem : Torch) (testb : List Batch) (s : RunState)
    (sd : List ℚ) (ms : Option (List ℚ)) (m : TorchModel)
    (h : s.fs.best_model = some sd) :
    ModelTrainer.model_test sem testb s =
      Except.ok
        (accuracy_score (testb.flatMap fun b => b.labels)
          (testb.flatMap fun b =>
            (sem.forward sd false b.input_ids b.attention_mask none).map argmaxIdx),
        classification_report (testb.flatMap fun b => b.labels)
          (testb.flatMap fun b =>
            (sem.forward sd false b.input_ids b.attention_mask none).map argmaxIdx)) ∧
    ModelTrainer.model_test sem testb { s with fs := { s.fs with most_model := ms } } =
      ModelTrainer.model_test sem testb s ∧
    ModelTrainer.model_test sem testb { s with model := m } =
      ModelTrainer.model_test sem testb s :=
  ⟨model_test_ok sem testb s sd h, rfl, rfl⟩

/-- C10: if no epoch's validation accuracy strictly exceeds the initial best
accuracy 0.0, the best-checkpoint file is never written during training, and
the test phase's attempt to load it fails with the propagated error. -/
theorem missing_best_checkpoint_fails_test (sem : Torch) (td : ℕ → List Batch)
    (vb testb : List Batch) (epochs : ℕ) (m : TorchModel)
    (h : ∀ a ∈ (ModelTrainer.model_train sem td vb epochs (ModelTrainer.initRun m)).2, a ≤ 0) :
    (ModelTrainer.model_train sem td vb epochs (ModelTrainer.initRun m)).1.fs.best_model =
      none ∧
    (ModelTrainer.model_train sem td vb epochs (ModelTrainer.initRun m)).1.fs.best_writes = 0 ∧
    ModelTrainer.model_test sem testb
        (ModelTrainer.model_train sem td vb epochs (ModelTrainer.initRun m)).1 =
      Except.error "FileNotFoundError: model/best_model.pth" := by
  have key := train_epochs_no_improvement sem td vb (List.range epochs)
    (ModelTrainer.initRun m) rfl h
  have hbm : (ModelTrainer.model_train sem td vb epochs
      (ModelTrainer.initRun m)).1.fs.best_model = none := key.2.1
  refine ⟨hbm, key.2.2, ?_⟩
  unfold ModelTrainer.model_test
  rw [hbm]

/-- C3 (counterexample): a concrete classifier head in training mode with
dropout probability 1/2 and pooled output `[[1]]`: the source's `forward`
returns the raw projection `[[1]]`, while the spec's dropout pipeline returns
`[[2]]` if the unit is kept and `[[0]]` if it is dropped — so `forward` does
not apply dropout at this input. -/
theorem forward_applies_dropout_counterexample :
    cmodel.forward [[0]] [[1]] none = [[1]] ∧
    forward_spec cmodel [true] [[0]] [[1]] none = [[2]] ∧
    forward_spec cmodel [false] [[0]] [[1]] none = [[0]] := by
  refine ⟨?_, ?_, ?_⟩ <;>
    norm_num [SentenceClassifyModel.forward, forward_spec, cmodel, dropoutApply, linearLayer,
      dot]

/-- C3 (amended): the classifier head computes its logits by running the
pretrained encoder, taking the pooled representation, and applying the linear
projection directly; the dropout layer is constructed in `__init__` but never
applied in `forward`, so the logits do not depend on the dropout
probability. -/
theorem forward_skips_dropout (m : SentenceClassifyModel) (ids am : List (List ℤ))
    (tt : Option (List (List ℤ))) (p : ℚ) :
    m.forward ids am tt =
      ((m.bert ids am tt).pooler_output).map
        (linearLayer m.classifier_weight m.classifier_bias) ∧
    SentenceClassifyModel.forward { m with hidden_dropout_prob := p } ids am tt =
      m.forward ids am tt :=
  ⟨rfl, rfl⟩

lemma getD_map_argmax (yp : List (List ℚ)) (i : ℕ) :
    (yp.map argmaxIdx).getD i 0 = argmaxIdx (yp.getD i []) := by
  induction yp generalizing i with
  | nil => cases i <;> rfl
  | cons hd tl ih =>
    cases i with
    | zero => rfl
    | succ n => simpa using ih n

lemma countP_zip_eq_filter_range :
    ∀ (u v : List ℕ), u.length = v.length →
      (u.zip v).countP (fun p => p.1 == p.2) =
        ((List.range u.length).filter fun i => u.getD i 0 == v.getD i 0).length
  | [], [], _ => rfl
  | [], _ :: _, h => by simp at h
  | _ :: _, [], h => by simp at h
  | x :: xs, y :: ys, h => by
    have h' : xs.length = ys.length := by simpa using h
    have ih := countP_zip_eq_filter_range xs ys h'
    simp only [List.zip_cons_cons, List.countP_cons, List.length_cons,
      List.range_succ_eq_map, List.filter_cons, List.getD_cons_zero]
    rw [List.filter_map]
    by_cases hxy : (x == y) = true
    · simp [hxy, ih, Function.comp_def]
    · simp [hxy, ih, Function.comp_def]

/-- C7: `model_evaluate` returns the fraction of examples whose first maximal
logit index equals the integer label (stated index-wise over the batch); in
particular, whenever the labels are `[0,1,1,0]` and the predicted logits have
row-wise argmax `[0,0,1,0]`, it returns 3/4. -/
theorem model_evaluate_argmax_fraction (yt : List ℕ) (yp : List (List ℚ))
    (h : yp.length = yt.length) :
    ModelTrainer.model_evaluate yt yp =
      ((((List.range yt.length).filter fun i =>
          yt.getD i 0 == argmaxIdx (yp.getD i [])).length : ℕ) : ℚ) / (yt.length : ℚ) ∧
    (yt = [0, 1, 1, 0] → yp.map argmaxIdx = [0, 0, 1, 0] →
      ModelTrainer.model_evaluate yt yp = 3 / 4) := by
  constructor
  · unfold ModelTrainer.model_evaluate accuracy_score
    rw [countP_zip_eq_filter_range yt (yp.map argmaxIdx) (by rw [List.length_map, h])]
    simp only [getD_map_argmax]
  · intro h1 h2
    unfold ModelTrainer.model_evaluate
    rw [h1, h2]
    norm_num [accuracy_score]

lemma model_valid_congr_forward (sem : Torch)
    (g : List ℚ → Bool → List (List ℤ) → List (List ℤ) → Option (List (List ℤ)) →
      List (List ℚ))
    (vb : List Batch) (m : TorchModel)
    (hg : ∀ sd tr i a, g sd tr i a none = sem.forward sd tr i a none) :
    ModelTrainer.model_valid { sem with forward := g } vb m =
      ModelTrainer.model_valid sem vb m := by
  apply Prod.ext
  · rfl
  · rw [model_valid_acc, model_valid_acc]
    simp only [hg]

lemma model_valid_token_type_irrelevant (sem : Torch) (vb : List Batch) (m : TorchModel)
    (t : Batch → List (List ℤ)) :
    ModelTrainer.model_valid sem (vb.map fun x => { x with token_type_ids := t x }) m =
      ModelTrainer.model_valid sem vb m := by
  apply Prod.ext
  · rfl
  · rw [model_valid_acc, model_valid_acc]
    rw [List.flatMap_map, List.flatMap_map]

/-- C9: no phase ever hands segment ids to the model. A batch's
`token_type_ids` can be replaced arbitrarily without changing the training
step, the validation pass, or the test pass; the run is insensitive to the
forward function's behaviour at any `token_type_ids` other than `none`; and
the classifier head invoked without segment ids passes `none` through to the
encoder, so only the encoder's behaviour at `none` matters. -/
theorem encoder_never_receives_token_type_ids (sem : Torch)
    (g : List ℚ → Bool → List (List ℤ) → List (List ℤ) → Option (List (List ℤ)) →
      List (List ℚ))
    (b : Batch) (t : List (List ℤ)) (s : RunState) (vb tb : List Batch) (m : TorchModel)
    (mA : SentenceClassifyModel)
    (bert1 bert2 : List (List ℤ) → List (List ℤ) → Option (List (List ℤ)) → BertOutputs)
    (ids am : List (List ℤ))
    (hg : ∀ sd tr i a, g sd tr i a none = sem.forward sd tr i a none)
    (hb : ∀ i a, bert1 i a none = bert2 i a none) :
    ModelTrainer.train_step sem { b with token_type_ids := t } s =
      ModelTrainer.train_step sem b s ∧
    ModelTrainer.model_valid sem (vb.map fun x => { x with token_type_ids := t }) m =
      ModelTrainer.model_valid sem vb m ∧
    ModelTrainer.model_test sem (tb.map fun x => { x with token_type_ids := t }) s =
      ModelTrainer.model_test sem tb s ∧
    ModelTrainer.train_step { sem with forward := g } b s =
      ModelTrainer.train_step sem b s ∧
    ModelTrainer.model_valid { sem with forward := g } vb m =
      ModelTrainer.model_valid sem vb m ∧
    ModelTrainer.model_test { sem with forward := g } tb s =
      ModelTrainer.model_test sem tb s ∧
    SentenceClassifyModel.forward { mA with bert := bert1 } ids am none =
      SentenceClassifyModel.forward { mA with bert := bert2 } ids am none := by
  refine ⟨rfl, model_valid_token_type_irrelevant sem vb m (fun _ => t), ?_, ?_,
    model_valid_congr_forward sem g vb m hg, ?_, ?_⟩
  · cases hsl : s.fs.best_model with
    | none => rw [model_test_none sem _ s hsl, model_test_none sem tb s hsl]
    | some sd =>
      rw [model_test_ok sem _ s sd hsl, model_test_ok sem tb s sd hsl]
      rw [List.flatMap_map, List.flatMap_map]
  · unfold ModelTrainer.train_step step_forward step_loss step_zero_grad step_backward
      step_optimizer step_scheduler step_bookkeeping
    simp only [hg]
  · cases hsl : s.fs.best_model with
    | none => rw [model_test_none _ tb s hsl, model_test_none sem tb s hsl]
    | some sd =>
      rw [model_test_ok _ tb s sd hsl, model_test_ok sem tb s sd hsl]
      simp only [hg]
  · unfold SentenceClassifyModel.forward
    rw [show ({ mA with bert := bert1 } : SentenceClassifyModel).bert ids am none =
      ({ mA with bert := bert2 } : SentenceClassifyModel).bert ids am none from hb ids am]

/-- C5: the schedule is constructed with warmup length `steps` and total
length `epochs * steps`; the learning rate is 0 at step 0, rises linearly
(multiplier `t/S`) during the warmup epoch, equals the configured peak
`2e-5` at the end of warmup, and is 0 again at the final training step. -/
theorem warmup_cosine_schedule_endpoints (E S : ℕ) (hS : 0 < S) (hE : 2 ≤ E) :
    scheduler_args E S = (S, E * S) ∧
    lr_at E S 0 = 0 ∧
    (∀ t, t < S → cosine_lr_lambda S (E * S) t = (t : ℝ) / (S : ℝ)) ∧
    lr_at E S S = base_lr ∧
    lr_at E S (E * S) = 0 := by
  have hS1 : 1 ≤ S := hS
  have hSES : S ≤ E * S := Nat.le_mul_of_pos_left S (lt_of_lt_of_le (by norm_num) hE)
  have h2S : 2 * S ≤ E * S := Nat.mul_le_mul_right S hE
  have hESS : 1 ≤ E * S - S := by omega
  refine ⟨rfl, ?_, ?_, ?_, ?_⟩
  · unfold lr_at scheduler_args
    simp only [cosine_lr_lambda, hS, if_true, Nat.cast_zero, zero_div, mul_zero]
  · intro t ht
    unfold cosine_lr_lambda
    rw [if_pos ht, Nat.max_eq_right hS1]
  · unfold lr_at scheduler_args base_lr
    simp only [cosine_lr_lambda, lt_self_iff_false, if_false, sub_self, zero_div, mul_zero,
      Real.cos_zero]
    norm_num
  · unfold lr_at scheduler_args base_lr
    have hnotlt : ¬ E * S < S := not_lt.mpr hSES
    have hmax : max 1 (E * S - S) = E * S - S := Nat.max_eq_right hESS
    simp only [cosine_lr_lambda, hnotlt, if_false, hmax]
    rw [Nat.cast_sub hSES]
    have hne : ((E * S : ℕ) : ℝ) - ((S : ℕ) : ℝ) ≠ 0 := by
      have h1 : (1 : ℝ) ≤ ((E * S - S : ℕ) : ℝ) := by exact_mod_cast hESS
      rw [Nat.cast_sub hSES] at h1
      linarith
    rw [div_self hne]
    have harg : Real.pi * (1 / 2) * 2 * 1 = Real.pi := by ring
    rw [harg, Real.cos_pi]
    norm_num

/-- Witness for C4: the best slot of `stateZ` holds `[1]`, and the test-phase
characterization holds there concretely. -/
theorem model_test_loads_best_checkpoint_witness :
    stateZ.fs.best_model = some [1] ∧
    (ModelTrainer.model_test semZ [batchZ] stateZ =
      Except.ok
        (accuracy_score ([batchZ].flatMap fun b => b.labels)
          ([batchZ].flatMap fun b =>
            (semZ.forward [1] false b.input_ids b.attention_mask none).map argmaxIdx),
        classification_report ([batchZ].flatMap fun b => b.labels)
          ([batchZ].flatMap fun b =>
            (semZ.forward [1] false b.input_ids b.attention_mask none).map argmaxIdx)) ∧
    ModelTrainer.model_test semZ [batchZ]
        { stateZ with fs := { stateZ.fs with most_model := none } } =
      ModelTrainer.model_test semZ [batchZ] stateZ ∧
    ModelTrainer.model_test semZ [batchZ] { stateZ with model := modelZ } =
      ModelTrainer.model_test semZ [batchZ] stateZ) :=
  ⟨rfl, model_test_loads_best_checkpoint semZ [batchZ] stateZ [1] none modelZ rfl⟩

/-- Witness for C5: the actual run's configuration (2 epochs, here with one
step per epoch) satisfies the schedule-endpoint theorem. -/
theorem warmup_cosine_schedule_endpoints_witness :
    ((0 : ℕ) < 1 ∧ 2 ≤ 2) ∧
    (scheduler_args 2 1 = (1, 2 * 1) ∧
      lr_at 2 1 0 = 0 ∧
      (∀ t, t < 1 → cosine_lr_lambda 1 (2 * 1) t = (t : ℝ) / ((1 : ℕ) : ℝ)) ∧
      lr_at 2 1 1 = base_lr ∧
      lr_at 2 1 (2 * 1) = 0) :=
  ⟨⟨by decide, by decide⟩, warmup_cosine_schedule_endpoints 2 1 (by decide) (by decide)⟩

/-- Witness for C7: the spec's concrete batch — labels `[0,1,1,0]`, logits
with argmax `[0,0,1,0]` — evaluates to accuracy 3/4. -/
theorem model_evaluate_argmax_fraction_witness :
    ([[(2 : ℚ), 1], [3, 0], [0, 5], [4, 2]] : List (List ℚ)).length =
      ([0, 1, 1, 0] : List ℕ).length ∧
    ModelTrainer.model_evaluate [0, 1, 1, 0] [[2, 1], [3, 0], [0, 5], [4, 2]] = 3 / 4 :=
  ⟨rfl,
    (model_evaluate_argmax_fraction [0, 1, 1, 0] [[2, 1], [3, 0], [0, 5], [4, 2]] rfl).2 rfl
      (by decide)⟩

/-- Witness for C9: the segment-id insensitivity holds at the concrete
oracle, batch, state, and classifier head. -/
theorem encoder_never_receives_token_type_ids_witness :
    (∀ (sd : List ℚ) (tr : Bool) (i a : List (List ℤ)),
      semZ.forward sd tr i a none = semZ.forward sd tr i a none) ∧
    (∀ i a, cmodel.bert i a none = cmodel.bert i a none) ∧
    (ModelTrainer.train_step semZ { batchZ with token_type_ids := [[5]] } stateZ =
      ModelTrainer.train_step semZ batchZ stateZ ∧
    ModelTrainer.model_valid semZ
        ([batchZ].map fun x => { x with token_type_ids := [[5]] }) modelZ =
      ModelTrainer.model_valid semZ [batchZ] modelZ ∧
    ModelTrainer.model_test semZ
        ([batchZ].map fun x => { x with token_type_ids := [[5]] }) stateZ =
      ModelTrainer.model_test semZ [batchZ] stateZ ∧
    ModelTrainer.train_step { semZ with forward := semZ.forward } batchZ stateZ =
      ModelTrainer.train_step semZ batchZ stateZ ∧
    ModelTrainer.model_valid { semZ with forward := semZ.forward } [batchZ] modelZ =
      ModelTrainer.model_valid semZ [batchZ] modelZ ∧
    ModelTrainer.model_test { semZ with forward := semZ.forward } [batchZ] stateZ =
      ModelTrainer.model_test semZ [batchZ] stateZ ∧
    SentenceClassifyModel.forward { cmodel with bert := cmodel.bert } [[0]] [[1]] none =
      SentenceClassifyModel.forward { cmodel with bert := cmodel.bert } [[0]] [[1]] none) :=
  ⟨fun _ _ _ _ => rfl, fun _ _ => rfl,
    encoder_never_receives_token_type_ids semZ semZ.forward batchZ [[5]] stateZ [batchZ]
      [batchZ] modelZ cmodel cmodel.bert cmodel.bert [[0]] [[1]] (fun _ _ _ _ => rfl)
      (fun _ _ => rfl)⟩

/-- Witness for C10: a one-epoch run whose single validation accuracy is 0
never writes the best checkpoint, and its test phase fails to load it. -/
theorem missing_best_checkpoint_fails_test_witness :
    (∀ a ∈ (ModelTrainer.model_train semZ (fun _ => [batchZ]) [] 1
        (ModelTrainer.initRun modelZ)).2, a ≤ 0) ∧
    (ModelTrainer.model_train semZ (fun _ => [batchZ]) [] 1
        (ModelTrainer.initRun modelZ)).1.fs.best_model = none ∧
    (ModelTrainer.model_train semZ (fun _ => [batchZ]) [] 1
        (ModelTrainer.initRun modelZ)).1.fs.best_writes = 0 ∧
    ModelTrainer.model_test semZ [batchZ]
        (ModelTrainer.model_train semZ (fun _ => [batchZ]) [] 1
          (ModelTrainer.initRun modelZ)).1 =
      Except.error "FileNotFoundError: model/best_model.pth" := by
  have hacc : (ModelTrainer.model_train semZ (fun _ => [batchZ]) [] 1
      (ModelTrainer.initRun modelZ)).2 = [accuracy_score [] []] := rfl
  have hyp : ∀ a ∈ (ModelTrainer.model_train semZ (fun _ => [batchZ]) [] 1
      (ModelTrainer.initRun modelZ)).2, a ≤ 0 := by
    intro a ha
    rw [hacc, List.mem_singleton] at ha
    rw [ha]
    norm_num [accuracy_score]
  exact ⟨hyp,
    missing_best_checkpoint_fails_test semZ (fun _ => [batchZ]) [] [batchZ] 1 modelZ hyp⟩

example : argmaxIdx [2, 1] = 0 := by decide
example : argmaxIdx [0, 5] = 1 := by decide
example : accuracy_score [0, 1, 1, 0] [0, 0, 1, 0] = 3 / 4 := by norm_num [accuracy_score]
example : ModelTrainer.model_evaluate [0, 1, 1, 0] [[2, 1], [3, 0], [0, 5], [4, 2]] = 3 / 4 := by
  norm_num [ModelTrainer.model_evaluate, accuracy_score, argmaxIdx, argmaxAux]
